import Mathlib

/-
Verification of the university course-registration and grade-management
system (SCUT_DBCD25): a shallow embedding of the enrollment allocation
workflow, grade scale, and grade-posting / drop operations, with theorems
settling the specification's claims about them.

Modelling conventions:
* Python floats (grades, credits, grade points) are embedded as ℚ.
* Database rows are embedded as Lean structures mirroring the dataclasses
  of models.py; result sets are lists of such structures.
* SQL UPDATE statements are embedded as maps over the enrollment list,
  with the affected-row count embedded as the predicate match test.
* Python truthiness on optional strings (None and "" are falsy) is
  embedded by timeslot_truthy.
* Timestamps (created/updated/enrollment dates) are omitted: no claim
  refers to them and the spec excludes real time.
-/

namespace CourseReg

/-- Enrollment status enum, from models.py EnrollmentStatus. -/
inductive EnrollmentStatus where
  | Enrolled
  | Dropped
  | Completed
  | Failed
deriving DecidableEq, Repr

/-- Semester enum, from models.py Semester. -/
inductive Semester where
  | Spring
  | Summer
  | Fall
deriving DecidableEq, Repr

/-- Enrollment row, from models.py Enrollment (timestamps omitted). -/
structure Enrollment where
  enrollment_id : Nat
  student_id : String
  section_id : Nat
  status : EnrollmentStatus
  final_grade : Option ℚ
  grade_points : Option ℚ
deriving DecidableEq, Repr

/-- Section row, from models.py Section (timestamps omitted). -/
structure Section where
  section_id : Nat
  course_id : String
  instructor_id : Option String
  semester : Semester
  year : Int
  max_capacity : Nat
  time_slot : Option String
  location : Option String
deriving DecidableEq, Repr

/-- Joined section view, from models.py SectionInfo as produced by
SectionDAO.get_section_by_id (fields not read by the claims' code paths
omitted). available_spots is MaxCapacity minus the count of Enrolled
rows, as computed by the SQL query in dao.py. -/
structure SectionInfo where
  section_id : Nat
  course_id : String
  credits : ℚ
  semester : String
  year : Int
  max_capacity : Nat
  current_enrollment : Int
  available_spots : Int
  time_slot : Option String
deriving DecidableEq, Repr

/-- Joined enrollment view, from models.py EnrollmentInfo as produced by
EnrollmentDAO.get_student_enrollments. status is the raw text code from
the database, compared as a string by services.py. -/
structure EnrollmentInfo where
  enrollment_id : Nat
  student_id : String
  section_id : Nat
  credits : ℚ
  semester : String
  year : Int
  time_slot : Option String
  status : String
  final_grade : Option ℚ
  grade_points : Option ℚ
deriving DecidableEq, Repr

/-- AppConfig.MIN_CREDITS_PER_SEMESTER, from config.py. -/
def MIN_CREDITS_PER_SEMESTER : ℚ := 10

/-- AppConfig.MAX_CREDITS_PER_SEMESTER, from config.py. -/
def MAX_CREDITS_PER_SEMESTER : ℚ := 40

/-- AppConfig.PASSING_GRADE, from config.py. -/
def PASSING_GRADE : ℚ := 60

/-- AppConfig.GRADE_SCALE, from config.py: the fixed breakpoint table of
closed intervals, in source order, each paired with its grade points. -/
def GRADE_SCALE : List ((ℚ × ℚ) × ℚ) :=
  [((97, 100), 4),
   ((93, 96), 37/10),
   ((90, 92), 33/10),
   ((87, 89), 3),
   ((83, 86), 27/10),
   ((80, 82), 23/10),
   ((77, 79), 2),
   ((73, 76), 17/10),
   ((70, 72), 13/10),
   ((67, 69), 1),
   ((65, 66), 7/10),
   ((0, 64), 0)]

/-- AppConfig.calculate_grade_points, from config.py: scan the table for
the first interval containing the grade; a grade in no interval yields
0.0.  (The Python None case is handled by the Option wrapper below.) -/
def calculate_grade_points (grade : ℚ) : ℚ :=
  match GRADE_SCALE.find? (fun entry => decide (entry.1.1 ≤ grade ∧ grade ≤ entry.1.2)) with
  | some entry => entry.2
  | none => 0

/-- AppConfig.calculate_grade_points on an optional grade: None maps to
None, as in config.py. -/
def calculate_grade_points_opt : Option ℚ → Option ℚ
  | none => none
  | some g => some (calculate_grade_points g)

/-- Coverage of a grade by the breakpoint table: some interval of
GRADE_SCALE contains it. -/
def covered (grade : ℚ) : Bool :=
  GRADE_SCALE.any (fun entry => decide (entry.1.1 ≤ grade ∧ grade ≤ entry.1.2))

/-- Python truthiness of an optional string: None and the empty string
are falsy, any other string is truthy.  This is the test performed by
`enrollment.time_slot and section.time_slot` in services.py. -/
def timeslot_truthy : Option String → Bool
  | none => false
  | some s => !(s == "")

/-- The sum of credits over current-term enrollments with status
Enrolled, from services.py line 202:
`sum(e.credits for e in current_enrollments if e.status == 'Enrolled')`. -/
def current_enrolled_credits (current_enrollments : List EnrollmentInfo) : ℚ :=
  ((current_enrollments.filter (fun e => e.status == "Enrolled")).map
    (fun e => e.credits)).sum

/-- The per-enrollment time-conflict test of services.py lines 213-215:
status is Enrolled, both time slots are truthy, and the strings are
equal. -/
def time_conflict_with (sec : SectionInfo) (e : EnrollmentInfo) : Bool :=
  e.status == "Enrolled" && timeslot_truthy e.time_slot &&
    timeslot_truthy sec.time_slot && e.time_slot == sec.time_slot

/-- StudentService.validate_enrollment_eligibility, from services.py
lines 182-227.  The two database reads (section lookup and the
current-term enrollment list) are passed in as arguments; the checks and
their order are exactly those of the source: section existence, capacity,
credit ceiling, below-minimum warning, time conflict, duplicate
enrollment. -/
def validate_enrollment_eligibility (sec? : Option SectionInfo)
    (current_enrollments : List EnrollmentInfo) (section_id : Nat) :
    Bool × List String :=
  match sec? with
  | none => (false, ["Section not found"])
  | some sec =>
    if sec.available_spots ≤ 0 then
      (false, ["Section is full"])
    else
      let new_total_credits := current_enrolled_credits current_enrollments + sec.credits
      if MAX_CREDITS_PER_SEMESTER < new_total_credits then
        (false, ["Exceeds maximum credit limit (40)"])
      else
        let warnings :=
          if new_total_credits < MIN_CREDITS_PER_SEMESTER ∧ current_enrollments.length = 0 then
            ["Below minimum credit recommendation (10)"]
          else []
        if current_enrollments.any (time_conflict_with sec) then
          (false, ["Time conflict with existing enrollment"])
        else if current_enrollments.any (fun e => e.section_id == section_id) then
          (false, ["Already enrolled in this section"])
        else
          (true, warnings)

/-- The per-row effect of the UPDATE in EnrollmentDAO.update_grade
(dao.py lines 682-688): a row matching the enrollment id receives the
final grade, the grade points computed by calculate_grade_points, and
status Completed when the grade is at least 60, Failed otherwise; other
rows are untouched. -/
def grade_row (enrollment_id : Nat) (final_grade : ℚ) (e : Enrollment) : Enrollment :=
  if e.enrollment_id == enrollment_id then
    { e with final_grade := some final_grade,
             grade_points := some (calculate_grade_points final_grade),
             status := if 60 ≤ final_grade then .Completed else .Failed }
  else e

/-- EnrollmentDAO.update_grade, from dao.py lines 676-693: run the UPDATE
over the enrollment table and report whether any row was affected. -/
def update_grade (enrollments : List Enrollment) (enrollment_id : Nat)
    (final_grade : ℚ) : List Enrollment × Bool :=
  (enrollments.map (grade_row enrollment_id final_grade),
   enrollments.any (fun e => e.enrollment_id == enrollment_id))

/-- InstructorService.update_student_grade, from services.py lines
283-298: reject a grade outside [0, 100] before any write, otherwise
delegate to EnrollmentDAO.update_grade and translate its row count into
a (success, message) pair. -/
def update_student_grade (enrollments : List Enrollment) (enrollment_id : Nat)
    (final_grade : ℚ) : List Enrollment × (Bool × String) :=
  if ¬ (0 ≤ final_grade ∧ final_grade ≤ 100) then
    (enrollments, (false, "Grade must be between 0 and 100"))
  else
    let result := update_grade enrollments enrollment_id final_grade
    if result.2 then (result.1, (true, "Grade updated successfully"))
    else (result.1, (false, "Failed to update grade - enrollment not found"))

/-- The WHERE clause of EnrollmentDAO.drop_enrollment (dao.py lines
665-669): the row belongs to the student and section and currently has
status Enrolled. -/
def drop_matches (student_id : String) (section_id : Nat) (e : Enrollment) : Bool :=
  e.student_id == student_id && e.section_id == section_id &&
    e.status == EnrollmentStatus.Enrolled

/-- EnrollmentDAO.drop_enrollment, from dao.py lines 662-674: set the
matching Enrolled rows to Dropped and report whether any row was
affected. -/
def drop_enrollment (enrollments : List Enrollment) (student_id : String)
    (section_id : Nat) : List Enrollment × Bool :=
  (enrollments.map
     (fun e => if drop_matches student_id section_id e then { e with status := .Dropped } else e),
   enrollments.any (drop_matches student_id section_id))

/-- StudentService.drop_course, from services.py lines 148-158: translate
the DAO's affected-row report into a (success, message) pair. -/
def drop_course (enrollments : List Enrollment) (student_id : String)
    (section_id : Nat) : List Enrollment × (Bool × String) :=
  let result := drop_enrollment enrollments student_id section_id
  if result.2 then (result.1, (true, "Course dropped successfully"))
  else (result.1, (false, "Failed to drop course - enrollment not found or already dropped"))

/-- The database state the enrollment operations act on: the Section and
Enrollment tables. -/
structure DBState where
  sections : List Section
  enrollments : List Enrollment
deriving DecidableEq, Repr

/-- The number of Enrollment rows with status Enrolled for a section, as
counted by the SQL subquery of SectionDAO.get_section_by_id
(`COUNT(*) FROM Enrollment WHERE Status = 'Enrolled' GROUP BY SectionID`). -/
def enrolledCount (enrollments : List Enrollment) (section_id : Nat) : Nat :=
  (enrollments.filter
    (fun e => e.status == EnrollmentStatus.Enrolled && e.section_id == section_id)).length

/-- Modelled from the spec: the stored procedure sp_EnrollStudent, called
by EnrollmentDAO.enroll_student (dao.py line 643) but defined in
database_schema.sql, which is not part of the source tree.  Per spec
section 4.4 step 2 the procedure, in one atomic unit, re-validates that
the section exists and that available_spots = capacity - enrolled_count
is positive, and only then inserts an Enrollment row with status
Enrolled.  The spec's further eligibility guards (credit load, time
conflict, duplicate enrollment) only restrict the transition further, so
they are omitted here: the capacity invariant proved below holds a
fortiori of any more restrictive guard. -/
def sp_EnrollStudent (st : DBState) (student_id : String) (section_id : Nat)
    (new_id : Nat) : DBState × Bool :=
  match st.sections.find? (fun sec => sec.section_id == section_id) with
  | none => (st, false)
  | some sec =>
    if enrolledCount st.enrollments section_id < sec.max_capacity then
      ({ st with
          enrollments := st.enrollments ++
            [{ enrollment_id := new_id, student_id := student_id,
               section_id := section_id, status := .Enrolled,
               final_grade := none, grade_points := none }] }, true)
    else (st, false)

/-- The enrollment operations of the spec's allocation workflow: atomic
enroll, drop, and grade posting. -/
inductive Op where
  | enroll (student_id : String) (section_id : Nat) (new_id : Nat)
  | drop (student_id : String) (section_id : Nat)
  | grade (enrollment_id : Nat) (final_grade : ℚ)

/-- Apply one operation to the database state. -/
def applyOp (st : DBState) : Op → DBState
  | .enroll sid xid nid => (sp_EnrollStudent st sid xid nid).1
  | .drop sid xid => { st with enrollments := (drop_enrollment st.enrollments sid xid).1 }
  | .grade eid g => { st with enrollments := (update_student_grade st.enrollments eid g).1 }

/-- Run a sequence of operations from a starting state. -/
def run (st : DBState) (ops : List Op) : DBState :=
  ops.foldl applyOp st

/-- The capacity invariant of the spec: no section ever has more
Enrolled rows than its max_capacity. -/
def capacityInv (st : DBState) : Prop :=
  ∀ sec ∈ st.sections, enrolledCount st.enrollments sec.section_id ≤ sec.max_capacity

/-- enrolledCount restated as a countP. -/
theorem enrolledCount_eq_countP (ens : List Enrollment) (x : Nat) :
    enrolledCount ens x =
      ens.countP (fun e => e.status == EnrollmentStatus.Enrolled && e.section_id == x) :=
  (List.countP_eq_length_filter _ _).symm

/-- A row transformation that fixes every row it leaves Enrolled never
increases the Enrolled count of any section. -/
theorem enrolledCount_map_le (f : Enrollment → Enrollment)
    (hf : ∀ e, (f e).status = EnrollmentStatus.Enrolled → f e = e)
    (ens : List Enrollment) (x : Nat) :
    enrolledCount (ens.map f) x ≤ enrolledCount ens x := by
  rw [enrolledCount_eq_countP, enrolledCount_eq_countP]
  induction ens with
  | nil => simp
  | cons e t ih =>
    simp only [List.map_cons, List.countP_cons]
    by_cases hp : ((f e).status == EnrollmentStatus.Enrolled && (f e).section_id == x) = true
    · have hfix : f e = e := hf e (by
        have h1 := (Bool.and_eq_true _ _).mp hp
        exact beq_iff_eq.mp h1.1)
      rw [hfix] at hp ⊢
      simp only [hp, if_true]
      omega
    · simp only [Bool.not_eq_true] at hp
      simp only [hp, Bool.false_eq_true, if_false]
      split <;> omega

/-- Appending one row changes the Enrolled count of a section by one
exactly when the row is Enrolled in that section. -/
theorem enrolledCount_append_single (ens : List Enrollment) (row : Enrollment) (x : Nat) :
    enrolledCount (ens ++ [row]) x =
      enrolledCount ens x +
        (if row.status = EnrollmentStatus.Enrolled ∧ row.section_id = x then 1 else 0) := by
  rw [enrolledCount_eq_countP, enrolledCount_eq_countP, List.countP_append]
  congr 1
  simp [List.countP_cons, Bool.and_eq_true, beq_iff_eq]

/-- No operation of the workflow touches the Section table. -/
theorem applyOp_sections (st : DBState) (op : Op) :
    (applyOp st op).sections = st.sections := by
  cases op with
  | enroll sid xid nid =>
    simp only [applyOp, sp_EnrollStudent]
    cases hfind : st.sections.find? (fun sec => sec.section_id == xid) with
    | none => rfl
    | some sec =>
      by_cases h : enrolledCount st.enrollments xid < sec.max_capacity <;> simp [h]
  | drop sid xid => rfl
  | grade eid g => rfl

/-- The drop map never turns a row into an Enrolled row it was not. -/
theorem drop_row_fixes_enrolled (sid : String) (xid : Nat) (e : Enrollment)
    (h : ((fun e => if drop_matches sid xid e then { e with status := EnrollmentStatus.Dropped } else e) e).status
          = EnrollmentStatus.Enrolled) :
    (fun e => if drop_matches sid xid e then { e with status := EnrollmentStatus.Dropped } else e) e = e := by
  by_cases hm : drop_matches sid xid e = true
  · simp [hm] at h
  · simp only [hm] at h ⊢
    simp

/-- The grading map never turns a row into an Enrolled row it was not. -/
theorem grade_row_fixes_enrolled (eid : Nat) (g : ℚ) (e : Enrollment)
    (h : (grade_row eid g e).status = EnrollmentStatus.Enrolled) :
    grade_row eid g e = e := by
  unfold grade_row at h ⊢
  by_cases hm : (e.enrollment_id == eid) = true
  · simp only [hm, if_true] at h
    by_cases h60 : (60 : ℚ) ≤ g <;> simp [h60] at h
  · simp only [hm] at h ⊢
    simp

/-- Every single operation preserves the capacity invariant (given that
section ids are unique, as they are for a database primary key). -/
theorem applyOp_capacityInv (st : DBState) (op : Op)
    (hnd : (st.sections.map Section.section_id).Nodup) (hinv : capacityInv st) :
    capacityInv (applyOp st op) := by
  intro sec' hsec'
  rw [applyOp_sections] at hsec'
  cases op with
  | enroll sid xid nid =>
    simp only [applyOp, sp_EnrollStudent]
    cases hfind : st.sections.find? (fun sec => sec.section_id == xid) with
    | none => exact hinv sec' hsec'
    | some sec =>
      by_cases hcap : enrolledCount st.enrollments xid < sec.max_capacity
      · simp only [hcap, if_true]
        rw [enrolledCount_append_single]
        by_cases hx : sec'.section_id = xid
        · have hsecmem := List.mem_of_find?_eq_some hfind
          have hkey : sec.section_id = xid := by
            have := List.find?_some hfind
            exact beq_iff_eq.mp this
          have hsame : sec' = sec :=
            List.inj_on_of_nodup_map hnd hsec' hsecmem (by rw [hx, hkey])
          subst hsame
          rw [if_pos ⟨rfl, hx.symm⟩, hx]
          omega
        · rw [if_neg (fun hcontra => hx hcontra.2.symm)]
          exact hinv sec' hsec'
      · simp only [hcap, if_false]
        exact hinv sec' hsec'
  | drop sid xid =>
    simp only [applyOp, drop_enrollment]
    exact le_trans
      (enrolledCount_map_le _ (drop_row_fixes_enrolled sid xid) st.enrollments sec'.section_id)
      (hinv sec' hsec')
  | grade eid g =>
    simp only [applyOp, update_student_grade]
    by_cases hr : ¬ ((0 : ℚ) ≤ g ∧ g ≤ 100)
    · simp only [hr, if_true]
      exact hinv sec' hsec'
    · simp only [hr, if_false, update_grade]
      split <;>
        exact le_trans
          (enrolledCount_map_le _ (grade_row_fixes_enrolled eid g) st.enrollments sec'.section_id)
          (hinv sec' hsec')

/-- Running any sequence of operations preserves the capacity
invariant. -/
theorem run_capacityInv (ops : List Op) (st : DBState)
    (hnd : (st.sections.map Section.section_id).Nodup) (hinv : capacityInv st) :
    capacityInv (run st ops) := by
  induction ops generalizing st with
  | nil => exact hinv
  | cons op rest ih =>
    have hnd' : ((applyOp st op).sections.map Section.section_id).Nodup := by
      rw [applyOp_sections]
      exact hnd
    exact ih (applyOp st op) hnd' (applyOp_capacityInv st op hnd hinv)

/-- C1: for every section, in every state reachable from a state
satisfying the capacity invariant by the enrollment operations (enroll,
drop, grade posting), the number of Enrolled rows for the section never
exceeds its max_capacity; and a successful sp_EnrollStudent call is only
possible when available_spots = max_capacity - enrolled_count is
positive.  Section ids are assumed unique, as for a primary key. -/
theorem capacity_never_exceeded (st : DBState) (ops : List Op)
    (hnd : (st.sections.map Section.section_id).Nodup) (hinv : capacityInv st) :
    capacityInv (run st ops) ∧
    (∀ student_id section_id new_id,
      (sp_EnrollStudent st student_id section_id new_id).2 = true →
      ∃ sec ∈ st.sections, sec.section_id = section_id ∧
        enrolledCount st.enrollments section_id < sec.max_capacity) := by
  refine ⟨run_capacityInv ops st hnd hinv, ?_⟩
  intro sid xid nid hsucc
  unfold sp_EnrollStudent at hsucc
  cases hfind : st.sections.find? (fun sec => sec.section_id == xid) with
  | none => rw [hfind] at hsucc; simp at hsucc
  | some sec =>
    rw [hfind] at hsucc
    by_cases hcap : enrolledCount st.enrollments xid < sec.max_capacity
    · have hkey : sec.section_id = xid := by
        have hq := List.find?_some hfind
        exact beq_iff_eq.mp hq
      exact ⟨sec, List.mem_of_find?_eq_some hfind, hkey, hcap⟩
    · simp [hcap] at hsucc

/-- A one-seat section used to exercise the capacity theorem. -/
def sectionW : Section :=
  { section_id := 1, course_id := "CS101", instructor_id := none,
    semester := .Fall, year := 2024, max_capacity := 1,
    time_slot := some "MWF 09:00-09:50", location := none }

/-- An initial state with one empty one-seat section. -/
def st0 : DBState := { sections := [sectionW], enrollments := [] }

/-- Two students racing for the single seat of sectionW. -/
def opsW : List Op := [.enroll "S1" 1 1, .enroll "S2" 1 2]

/-- Witness for C1: the hypotheses hold of the one-seat initial state,
and after two competing enrollments the invariant still holds. -/
theorem capacity_never_exceeded_witness :
    (st0.sections.map Section.section_id).Nodup ∧ capacityInv st0 ∧
      capacityInv (run st0 opsW) :=
  ⟨by decide, by unfold capacityInv; decide,
   (capacity_never_exceeded st0 opsW (by decide) (by unfold capacityInv; decide)).1⟩

/-- Any two entries of the table whose intervals contain a common grade
carry the same points (the intervals are pairwise disjoint). -/
theorem grade_scale_value_unique (g : ℚ) (e1 e2 : (ℚ × ℚ) × ℚ)
    (h1m : e1 ∈ GRADE_SCALE) (h2m : e2 ∈ GRADE_SCALE)
    (ha1 : e1.1.1 ≤ g) (hb1 : g ≤ e1.1.2) (ha2 : e2.1.1 ≤ g) (hb2 : g ≤ e2.1.2) :
    e1.2 = e2.2 := by
  unfold GRADE_SCALE at h1m h2m
  fin_cases h1m <;> fin_cases h2m <;>
    (norm_num at ha1 hb1 ha2 hb2 ⊢ <;> linarith)

/-- Entries of the table are ordered: an interval containing a smaller
grade never carries more points than one containing a larger grade. -/
theorem grade_scale_entries_mono (g1 g2 : ℚ) (e1 e2 : (ℚ × ℚ) × ℚ)
    (h1m : e1 ∈ GRADE_SCALE) (h2m : e2 ∈ GRADE_SCALE)
    (ha1 : e1.1.1 ≤ g1) (hb1 : g1 ≤ e1.1.2) (ha2 : e2.1.1 ≤ g2) (hb2 : g2 ≤ e2.1.2)
    (h12 : g1 < g2) : e1.2 ≤ e2.2 := by
  unfold GRADE_SCALE at h1m h2m
  fin_cases h1m <;> fin_cases h2m <;>
    (norm_num at ha1 hb1 ha2 hb2 ⊢ <;> linarith)

/-- calculate_grade_points returns the points of any table entry whose
interval contains the grade. -/
theorem calculate_grade_points_eq_of_mem (g : ℚ) (entry : (ℚ × ℚ) × ℚ)
    (hmem : entry ∈ GRADE_SCALE) (h1 : entry.1.1 ≤ g) (h2 : g ≤ entry.1.2) :
    calculate_grade_points g = entry.2 := by
  have hsome : (GRADE_SCALE.find? (fun e => decide (e.1.1 ≤ g ∧ g ≤ e.1.2))).isSome := by
    rw [List.find?_isSome]
    exact ⟨entry, hmem, by simp [h1, h2]⟩
  obtain ⟨found, hfound⟩ := Option.isSome_iff_exists.mp hsome
  have hfmem : found ∈ GRADE_SCALE := List.mem_of_find?_eq_some hfound
  have hfpred := List.find?_some hfound
  simp only [decide_eq_true_eq] at hfpred
  unfold calculate_grade_points
  rw [hfound]
  exact grade_scale_value_unique g found entry hfmem hmem hfpred.1 hfpred.2 h1 h2

/-- Any grade in the interval [0, 64] receives 0 grade points. -/
theorem calculate_grade_points_low (g : ℚ) (h0 : 0 ≤ g) (h64 : g ≤ 64) :
    calculate_grade_points g = 0 :=
  calculate_grade_points_eq_of_mem g ((0, 64), 0) (by unfold GRADE_SCALE; simp) h0 h64

/-- C3 counterexample: the grades 66 and 66.5 both lie in [0, 100] with
66 < 66.5, yet calculate_grade_points maps 66 to 0.7 and the uncovered
gap grade 66.5 to the fallback 0.0, so the function is not monotonic
non-decreasing over all of [0, 100]. -/
theorem grade_scale_not_monotonic :
    (66 : ℚ) < 133/2 ∧ (133/2 : ℚ) ≤ 100 ∧ (0 : ℚ) ≤ 66 ∧
      calculate_grade_points (133/2) < calculate_grade_points 66 := by
  refine ⟨by norm_num, by norm_num, by norm_num, ?_⟩
  have h1 : calculate_grade_points (133/2) = 0 := by
    norm_num [calculate_grade_points, GRADE_SCALE, List.find?]
  have h2 : calculate_grade_points 66 = 7/10 := by
    norm_num [calculate_grade_points, GRADE_SCALE, List.find?]
  rw [h1, h2]
  norm_num

/-- C3 (amended): calculate_grade_points is total, and it is monotonic
non-decreasing on the grades covered by some interval of the table: for
covered grades g1 < g2 the points of g1 never exceed those of g2.
(Non-integer grades falling in a gap between intervals receive the
fallback 0.0 and are excluded, as the counterexample above forces.) -/
theorem grade_scale_monotonic_on_covered (g1 g2 : ℚ)
    (hc1 : covered g1 = true) (hc2 : covered g2 = true) (h12 : g1 < g2) :
    calculate_grade_points g1 ≤ calculate_grade_points g2 := by
  unfold covered at hc1 hc2
  rw [List.any_eq_true] at hc1 hc2
  obtain ⟨e1, he1m, he1p⟩ := hc1
  obtain ⟨e2, he2m, he2p⟩ := hc2
  simp only [decide_eq_true_eq] at he1p he2p
  rw [calculate_grade_points_eq_of_mem g1 e1 he1m he1p.1 he1p.2,
      calculate_grade_points_eq_of_mem g2 e2 he2m he2p.1 he2p.2]
  exact grade_scale_entries_mono g1 g2 e1 e2 he1m he2m he1p.1 he1p.2 he2p.1 he2p.2 h12

/-- Witness for the amended C3 at the covered pair 70 < 80. -/
theorem grade_scale_monotonic_on_covered_witness :
    covered 70 = true ∧ covered 80 = true ∧
      calculate_grade_points 70 ≤ calculate_grade_points 80 :=
  ⟨by norm_num [covered, GRADE_SCALE, List.any],
   by norm_num [covered, GRADE_SCALE, List.any],
   grade_scale_monotonic_on_covered 70 80
     (by norm_num [covered, GRADE_SCALE, List.any])
     (by norm_num [covered, GRADE_SCALE, List.any]) (by norm_num)⟩

/-- A plain Enrolled row used by the concrete grade-posting scenarios. -/
def sampleEnrollment : Enrollment :=
  { enrollment_id := 1, student_id := "S1", section_id := 1,
    status := .Enrolled, final_grade := none, grade_points := none }

/-- The row produced by posting grade 75 on sampleEnrollment. -/
def sampleEnrollment75 : Enrollment :=
  { enrollment_id := 1, student_id := "S1", section_id := 1,
    status := .Completed, final_grade := some 75, grade_points := some (17/10) }

/-- The row produced by posting grade 55 on sampleEnrollment. -/
def sampleEnrollment55 : Enrollment :=
  { enrollment_id := 1, student_id := "S1", section_id := 1,
    status := .Failed, final_grade := some 55, grade_points := some 0 }

/-- C2 counterexample: posting grade 75 on an existing enrollment stores
grade points 1.7 (the (73, 76) table row), not the claimed 3.0. -/
theorem post_grade_75_points_not_3 :
    (update_grade [sampleEnrollment] 1 75).1.map Enrollment.grade_points =
        [some (17/10)] ∧ (17 : ℚ)/10 ≠ 3 := by
  constructor
  · norm_num [update_grade, grade_row, sampleEnrollment,
      calculate_grade_points, GRADE_SCALE, List.find?]
  · norm_num

/-- C2 (amended): posting grade 75 on an existing enrollment sets its
status to Completed and its grade points to 1.7, and posting grade 55
sets its status to Failed and its grade points to 0.0 (grade points via
AppConfig.calculate_grade_points and its breakpoint table). -/
theorem post_grade_75_55 :
    (update_grade [sampleEnrollment] 1 75).1 = [sampleEnrollment75] ∧
      (update_grade [sampleEnrollment] 1 55).1 = [sampleEnrollment55] := by
  constructor <;>
    norm_num [update_grade, grade_row, sampleEnrollment, sampleEnrollment75,
      sampleEnrollment55, calculate_grade_points, GRADE_SCALE, List.find?]

/-- The fields of a row matched by the grade-posting UPDATE. -/
theorem grade_row_fields (eid : Nat) (g : ℚ) (e : Enrollment)
    (heid : e.enrollment_id = eid) :
    (grade_row eid g e).enrollment_id = eid ∧
    (grade_row eid g e).final_grade = some g ∧
    (grade_row eid g e).grade_points = some (calculate_grade_points g) ∧
    ((grade_row eid g e).status = EnrollmentStatus.Completed ↔ 60 ≤ g) ∧
    ((grade_row eid g e).status = EnrollmentStatus.Failed ↔ g < 60) := by
  unfold grade_row
  rw [if_pos (show (e.enrollment_id == eid) = true from beq_iff_eq.mpr heid)]
  refine ⟨heid, rfl, rfl, ?_, ?_⟩
  · rcases le_or_lt 60 g with h60 | h60
    · simp [if_pos h60, h60]
    · simp [if_neg (not_le.mpr h60), not_le.mpr h60]
  · rcases le_or_lt 60 g with h60 | h60
    · simp [if_pos h60, not_lt.mpr h60]
    · simp [if_neg (not_le.mpr h60), h60]

/-- In range, the service delegates to the DAO update and reports its
affected-row outcome. -/
theorem update_student_grade_in_range (ens : List Enrollment) (eid : Nat) (g : ℚ)
    (h : (0 : ℚ) ≤ g ∧ g ≤ 100) :
    update_student_grade ens eid g =
      ((update_grade ens eid g).1,
       if (update_grade ens eid g).2 then (true, "Grade updated successfully")
       else (false, "Failed to update grade - enrollment not found")) := by
  unfold update_student_grade
  rw [if_neg (not_not_intro h)]
  by_cases hc : (update_grade ens eid g).2 <;> simp [hc]

/-- C4: a grade outside [0, 100] is rejected with no write to storage; a
grade in [0, 100] posted on an existing enrollment succeeds and persists
the final grade, the computed grade points, and the new status in the
one UPDATE, with status Completed exactly when the grade is at least 60
and Failed exactly when it is below 60. -/
theorem update_student_grade_spec (ens : List Enrollment) (eid : Nat) (g : ℚ) :
    (¬ (0 ≤ g ∧ g ≤ 100) →
      update_student_grade ens eid g = (ens, (false, "Grade must be between 0 and 100")))
    ∧ (0 ≤ g → g ≤ 100 → ∀ e ∈ ens, e.enrollment_id = eid →
        (update_student_grade ens eid g).2.1 = true ∧
        ∃ e' ∈ (update_student_grade ens eid g).1,
          e'.enrollment_id = eid ∧ e'.final_grade = some g ∧
          e'.grade_points = some (calculate_grade_points g) ∧
          (e'.status = EnrollmentStatus.Completed ↔ 60 ≤ g) ∧
          (e'.status = EnrollmentStatus.Failed ↔ g < 60)) := by
  constructor
  · intro hout
    unfold update_student_grade
    rw [if_pos hout]
  · intro h0 h100 e hmem heid
    have hok : (update_grade ens eid g).2 = true := by
      unfold update_grade
      simp only [List.any_eq_true]
      exact ⟨e, hmem, beq_iff_eq.mpr heid⟩
    rw [update_student_grade_in_range ens eid g ⟨h0, h100⟩]
    constructor
    · rw [hok]
      rfl
    · refine ⟨grade_row eid g e, ?_, grade_row_fields eid g e heid⟩
      simpa [update_grade] using List.mem_map_of_mem (grade_row eid g) hmem

/-- Witness for C4: the out-of-range grade 150 is rejected leaving the
table unchanged, and the in-range grade 70 on the sample row succeeds. -/
theorem update_student_grade_spec_witness :
    update_student_grade [sampleEnrollment] 1 150 =
        ([sampleEnrollment], (false, "Grade must be between 0 and 100")) ∧
      (update_student_grade [sampleEnrollment] 1 70).2.1 = true :=
  ⟨(update_student_grade_spec [sampleEnrollment] 1 150).1 (by norm_num),
   ((update_student_grade_spec [sampleEnrollment] 1 70).2 (by norm_num) (by norm_num)
      sampleEnrollment (List.mem_singleton.mpr rfl) rfl).1⟩

/-- C10: posting any grade in [60, 64] on an existing enrollment marks
it Completed while storing 0.0 grade points, since the passing threshold
60 lies below the lowest non-zero breakpoint 65 of the grade table. -/
theorem passing_grade_zero_points (ens : List Enrollment) (eid : Nat) (g : ℚ)
    (h60 : 60 ≤ g) (h64 : g ≤ 64) (e : Enrollment) (hmem : e ∈ ens)
    (heid : e.enrollment_id = eid) :
    ∃ e' ∈ (update_grade ens eid g).1,
      e'.enrollment_id = eid ∧ e'.status = EnrollmentStatus.Completed ∧
        e'.grade_points = some 0 := by
  have hfields := grade_row_fields eid g e heid
  refine ⟨grade_row eid g e, ?_, hfields.1, hfields.2.2.2.1.mpr h60, ?_⟩
  · simpa [update_grade] using List.mem_map_of_mem (grade_row eid g) hmem
  · rw [hfields.2.2.1, calculate_grade_points_low g (by linarith) h64]

/-- Witness for C10 at grade 62 on the sample enrollment. -/
theorem passing_grade_zero_points_witness :
    ∃ e' ∈ (update_grade [sampleEnrollment] 1 62).1,
      e'.enrollment_id = 1 ∧ e'.status = EnrollmentStatus.Completed ∧
        e'.grade_points = some 0 :=
  passing_grade_zero_points [sampleEnrollment] 1 62 (by norm_num) (by norm_num)
    sampleEnrollment (List.mem_singleton.mpr rfl) rfl

/-- The row left by the drop UPDATE never matches the drop WHERE clause
again: a matched row now has status Dropped, an unmatched row did not
match before. -/
theorem drop_row_clears (sid : String) (xid : Nat) (e : Enrollment) :
    drop_matches sid xid
      (if drop_matches sid xid e then { e with status := EnrollmentStatus.Dropped } else e)
      = false := by
  by_cases hm : drop_matches sid xid e = true
  · rw [if_pos hm]
    simp [drop_matches]
  · simp only [Bool.not_eq_true] at hm
    simp [hm]

/-- C8: dropping a (student, section) pair with no Enrolled row mutates
nothing and reports failure; with a matching Enrolled row it reports
success, turns each matching row to Dropped and keeps every other row;
and a repeated drop after the first reports failure and mutates nothing
further. -/
theorem drop_course_spec (ens : List Enrollment) (sid : String) (xid : Nat) :
    ((¬ ∃ e ∈ ens, drop_matches sid xid e = true) →
        drop_course ens sid xid =
          (ens, (false, "Failed to drop course - enrollment not found or already dropped")))
    ∧ ((∃ e ∈ ens, drop_matches sid xid e = true) →
        (drop_course ens sid xid).2.1 = true ∧
        ∀ e ∈ ens,
          (drop_matches sid xid e = true →
            { e with status := EnrollmentStatus.Dropped } ∈ (drop_course ens sid xid).1) ∧
          (drop_matches sid xid e = false → e ∈ (drop_course ens sid xid).1))
    ∧ (drop_course (drop_course ens sid xid).1 sid xid).2.1 = false
    ∧ (drop_course (drop_course ens sid xid).1 sid xid).1 = (drop_course ens sid xid).1 := by
  have hfst : ∀ l : List Enrollment, (drop_course l sid xid).1 = (drop_enrollment l sid xid).1 := by
    intro l
    unfold drop_course
    by_cases hc : (drop_enrollment l sid xid).2 <;> simp [hc]
  have hclear : ∀ x ∈ (drop_course ens sid xid).1, drop_matches sid xid x = false := by
    intro x hx
    rw [hfst] at hx
    unfold drop_enrollment at hx
    simp only [List.mem_map] at hx
    obtain ⟨e, _, rfl⟩ := hx
    exact drop_row_clears sid xid e
  have hany2 : (drop_enrollment (drop_course ens sid xid).1 sid xid).2 = false := by
    unfold drop_enrollment
    exact List.any_eq_false.mpr (fun x hx => by simp [hclear x hx])
  refine ⟨?_, ?_, ?_, ?_⟩
  · intro hno
    have hany : (drop_enrollment ens sid xid).2 = false := by
      unfold drop_enrollment
      exact List.any_eq_false.mpr (fun x hx => by
        simp only [Bool.not_eq_true]
        by_contra hcon
        simp only [Bool.not_eq_false] at hcon
        exact hno ⟨x, hx, hcon⟩)
    have hmapid : (drop_enrollment ens sid xid).1 = ens := by
      unfold drop_enrollment
      refine (List.map_congr_left ?_).trans (List.map_id' ens)
      intro e he
      have hm : drop_matches sid xid e = false := by
        by_contra hcon
        simp only [Bool.not_eq_false] at hcon
        exact hno ⟨e, he, hcon⟩
      simp [hm]
    simp only [drop_course]
    rw [hany]
    simp [hmapid]
  · intro hyes
    obtain ⟨e0, he0, hm0⟩ := hyes
    have hany : (drop_enrollment ens sid xid).2 = true := by
      unfold drop_enrollment
      exact List.any_eq_true.mpr ⟨e0, he0, hm0⟩
    constructor
    · simp only [drop_course]
      rw [hany]
      simp
    · intro e he
      rw [hfst]
      constructor
      · intro hm
        have himg :
            (if drop_matches sid xid e then { e with status := EnrollmentStatus.Dropped } else e)
              = { e with status := EnrollmentStatus.Dropped } := by rw [if_pos hm]
        unfold drop_enrollment
        rw [← himg]
        exact List.mem_map_of_mem _ he
      · intro hm
        have himg :
            (if drop_matches sid xid e then { e with status := EnrollmentStatus.Dropped } else e)
              = e := by rw [hm]; simp
        unfold drop_enrollment
        rw [← himg]
        exact List.mem_map_of_mem _ he
  · have h2 := hany2
    generalize hG : (drop_course ens sid xid).1 = X at h2 ⊢
    simp only [drop_course]
    rw [h2]
    simp
  · rw [hfst]
    unfold drop_enrollment
    refine (List.map_congr_left ?_).trans (List.map_id' _)
    intro e he
    simp [hclear e he]

/-- An Enrolled row used by the concrete drop scenario. -/
def enrolledPair : Enrollment :=
  { enrollment_id := 2, student_id := "S2", section_id := 5,
    status := .Enrolled, final_grade := none, grade_points := none }

/-- Witness for C8: dropping the enrolled pair succeeds once and the
repeated drop reports failure. -/
theorem drop_course_spec_witness :
    (drop_course [enrolledPair] "S2" 5).2.1 = true ∧
      (drop_course (drop_course [enrolledPair] "S2" 5).1 "S2" 5).2.1 = false :=
  ⟨((drop_course_spec [enrolledPair] "S2" 5).2.1
      ⟨enrolledPair, List.mem_singleton.mpr rfl, by decide⟩).1,
   (drop_course_spec [enrolledPair] "S2" 5).2.2.1⟩

/-- C5: with the section found and seats available, the eligibility
check fails with the credit-limit error exactly when the student's
current-term Enrolled credits plus the section's credits exceed
MAX_CREDITS_PER_SEMESTER (40); a sum of exactly 40 is never rejected on
credits. -/
theorem credit_limit_check (sec : SectionInfo) (ce : List EnrollmentInfo) (xid : Nat)
    (hspots : 0 < sec.available_spots) :
    validate_enrollment_eligibility (some sec) ce xid =
        (false, ["Exceeds maximum credit limit (40)"]) ↔
      MAX_CREDITS_PER_SEMESTER < current_enrolled_credits ce + sec.credits := by
  simp only [validate_enrollment_eligibility]
  rw [if_neg (show ¬ sec.available_spots ≤ 0 by omega)]
  by_cases hcred : MAX_CREDITS_PER_SEMESTER < current_enrolled_credits ce + sec.credits
  · rw [if_pos hcred]
    simp [hcred]
  · rw [if_neg hcred]
    constructor
    · intro h
      exfalso
      split_ifs at h <;> simp at h
    · intro h
      exact absurd h hcred

/-- One enrollment triggers the time-conflict test exactly when it is
Enrolled, both time-slot strings are present in Python's truthy sense,
and the strings coincide. -/
theorem time_conflict_with_iff (sec : SectionInfo) (e : EnrollmentInfo) :
    time_conflict_with sec e = true ↔
      e.status = "Enrolled" ∧ timeslot_truthy e.time_slot = true ∧
        timeslot_truthy sec.time_slot = true ∧ e.time_slot = sec.time_slot := by
  unfold time_conflict_with
  simp [Bool.and_eq_true, beq_iff_eq, and_assoc]

/-- C7: with the section found, seats available and the credit ceiling
respected, the eligibility check fails with the time-conflict error
exactly when some current-term Enrolled row carries a truthy time-slot
string equal to the section's truthy time-slot string (plain string
equality). -/
theorem time_conflict_check (sec : SectionInfo) (ce : List EnrollmentInfo) (xid : Nat)
    (hspots : 0 < sec.available_spots)
    (hcred : current_enrolled_credits ce + sec.credits ≤ MAX_CREDITS_PER_SEMESTER) :
    validate_enrollment_eligibility (some sec) ce xid =
        (false, ["Time conflict with existing enrollment"]) ↔
      ∃ e ∈ ce, e.status = "Enrolled" ∧ timeslot_truthy e.time_slot = true ∧
        timeslot_truthy sec.time_slot = true ∧ e.time_slot = sec.time_slot := by
  have hany : ce.any (time_conflict_with sec) = true ↔
      ∃ e ∈ ce, e.status = "Enrolled" ∧ timeslot_truthy e.time_slot = true ∧
        timeslot_truthy sec.time_slot = true ∧ e.time_slot = sec.time_slot := by
    rw [List.any_eq_true]
    exact exists_congr fun e => and_congr_right fun _ => time_conflict_with_iff sec e
  simp only [validate_enrollment_eligibility]
  rw [if_neg (show ¬ sec.available_spots ≤ 0 by omega),
      if_neg (not_lt.mpr hcred)]
  by_cases htc : ce.any (time_conflict_with sec) = true
  · rw [if_pos htc]
    exact iff_of_true rfl (hany.mp htc)
  · rw [if_neg htc]
    apply iff_of_false
    · intro h
      split_ifs at h <;> simp at h
    · intro hex
      exact htc (hany.mpr hex)

/-- C9 (amended): with the section found, seats available and the credit
ceiling respected, the check returns eligible together with the
below-minimum warning exactly when the prospective total is below
MIN_CREDITS_PER_SEMESTER (10) and the student has zero current-term
enrollment rows of any status. -/
theorem below_min_warning_check (sec : SectionInfo) (ce : List EnrollmentInfo) (xid : Nat)
    (hspots : 0 < sec.available_spots)
    (hcred : current_enrolled_credits ce + sec.credits ≤ MAX_CREDITS_PER_SEMESTER) :
    validate_enrollment_eligibility (some sec) ce xid =
        (true, ["Below minimum credit recommendation (10)"]) ↔
      (current_enrolled_credits ce + sec.credits < MIN_CREDITS_PER_SEMESTER ∧ ce = []) := by
  simp only [validate_enrollment_eligibility]
  rw [if_neg (show ¬ sec.available_spots ≤ 0 by omega),
      if_neg (not_lt.mpr hcred)]
  by_cases hw : current_enrolled_credits ce + sec.credits < MIN_CREDITS_PER_SEMESTER ∧
      ce.length = 0
  · rw [if_pos hw]
    have hce : ce = [] := List.length_eq_zero.mp hw.2
    subst hce
    simp [hw.1]
  · rw [if_neg hw]
    apply iff_of_false
    · intro h
      split_ifs at h <;> simp at h
    · rintro ⟨hlt, rfl⟩
      exact hw ⟨hlt, rfl⟩

/-- A section with free seats whose time slot is "MWF 09:00-09:50". -/
def secA : SectionInfo :=
  { section_id := 1, course_id := "CS101", credits := 3, semester := "Fall",
    year := 2024, max_capacity := 30, current_enrollment := 25,
    available_spots := 5, time_slot := some "MWF 09:00-09:50" }

/-- A Dropped current-term row of the same student for secA itself. -/
def droppedRowA : EnrollmentInfo :=
  { enrollment_id := 7, student_id := "S1", section_id := 1, credits := 3,
    semester := "Fall", year := 2024, time_slot := some "MWF 09:00-09:50",
    status := "Dropped", final_grade := none, grade_points := none }

/-- C6: the source's duplicate-enrollment loop tests only the section id
and ignores the row's status, so a student whose only current-term row
for the target section is Dropped is still rejected with the
already-enrolled error, contradicting the spec's rule that only an
Enrolled row blocks and that re-enrollment after a drop is permitted. -/
theorem reenroll_after_drop_blocked :
    droppedRowA.status = "Dropped" ∧ droppedRowA.section_id = 1 ∧
    validate_enrollment_eligibility (some secA) [droppedRowA] 1 =
      (false, ["Already enrolled in this section"]) := by
  refine ⟨rfl, rfl, ?_⟩
  simp [validate_enrollment_eligibility, current_enrolled_credits,
    time_conflict_with, timeslot_truthy, secA, droppedRowA,
    MAX_CREDITS_PER_SEMESTER, MIN_CREDITS_PER_SEMESTER]
  norm_num

/-- A section with free seats, 4 credits, time slot "MWF 10:00-10:50". -/
def secB : SectionInfo :=
  { section_id := 1, course_id := "CS102", credits := 4, semester := "Fall",
    year := 2024, max_capacity := 30, current_enrollment := 27,
    available_spots := 3, time_slot := some "MWF 10:00-10:50" }

/-- A Dropped current-term row of the student for a different section. -/
def droppedRowOther : EnrollmentInfo :=
  { enrollment_id := 8, student_id := "S1", section_id := 2, credits := 3,
    semester := "Fall", year := 2024, time_slot := some "TTh 10:00-11:30",
    status := "Dropped", final_grade := none, grade_points := none }

/-- C9 counterexample: the student's only current-term row is Dropped,
so they hold zero Enrolled rows and the prospective total 0 + 4 = 4 is
below 10, yet no below-minimum warning is emitted: the source's
emptiness test counts current-term rows of every status, not only
Enrolled ones. -/
theorem below_min_warning_counterexample :
    current_enrolled_credits [droppedRowOther] + secB.credits <
        MIN_CREDITS_PER_SEMESTER ∧
    [droppedRowOther].filter (fun e => e.status == "Enrolled") = [] ∧
    validate_enrollment_eligibility (some secB) [droppedRowOther] 1 = (true, []) := by
  refine ⟨?_, ?_, ?_⟩
  · simp [current_enrolled_credits, droppedRowOther, secB,
      MIN_CREDITS_PER_SEMESTER]
    norm_num
  · simp [droppedRowOther]
  · simp [validate_enrollment_eligibility, current_enrolled_credits,
      time_conflict_with, timeslot_truthy, secB, droppedRowOther,
      MAX_CREDITS_PER_SEMESTER, MIN_CREDITS_PER_SEMESTER]
    norm_num

/-- An Enrolled current-term row worth 38 credits. -/
def enrolledRow38 : EnrollmentInfo :=
  { enrollment_id := 9, student_id := "S1", section_id := 3, credits := 38,
    semester := "Fall", year := 2024, time_slot := some "TTh 14:00-15:30",
    status := "Enrolled", final_grade := none, grade_points := none }

/-- An Enrolled current-term row worth 36 credits. -/
def enrolledRow36 : EnrollmentInfo :=
  { enrollment_id := 10, student_id := "S1", section_id := 3, credits := 36,
    semester := "Fall", year := 2024, time_slot := some "TTh 14:00-15:30",
    status := "Enrolled", final_grade := none, grade_points := none }

/-- Witness for C5: 38 current credits plus a 4-credit section is
rejected on credits (42 > 40), while 36 + 4 = 40 exactly is not. -/
theorem credit_limit_check_witness :
    (0 : Int) < secB.available_spots ∧
    validate_enrollment_eligibility (some secB) [enrolledRow38] 1 =
        (false, ["Exceeds maximum credit limit (40)"]) ∧
    validate_enrollment_eligibility (some secB) [enrolledRow36] 1 ≠
        (false, ["Exceeds maximum credit limit (40)"]) := by
  refine ⟨by norm_num [secB], ?_, ?_⟩
  · exact (credit_limit_check secB [enrolledRow38] 1 (by norm_num [secB])).mpr
      (by
        simp [current_enrolled_credits, enrolledRow38, secB,
          MAX_CREDITS_PER_SEMESTER]
        norm_num)
  · intro h
    have hlt := (credit_limit_check secB [enrolledRow36] 1 (by norm_num [secB])).mp h
    simp [current_enrolled_credits, enrolledRow36, secB,
      MAX_CREDITS_PER_SEMESTER] at hlt
    norm_num at hlt

/-- An Enrolled current-term row sharing secB's time slot. -/
def enrolledRowConf : EnrollmentInfo :=
  { enrollment_id := 11, student_id := "S1", section_id := 4, credits := 3,
    semester := "Fall", year := 2024, time_slot := some "MWF 10:00-10:50",
    status := "Enrolled", final_grade := none, grade_points := none }

/-- Witness for C7: an Enrolled row sharing the slot "MWF 10:00-10:50"
with secB triggers the time-conflict failure. -/
theorem time_conflict_check_witness :
    (0 : Int) < secB.available_spots ∧
    current_enrolled_credits [enrolledRowConf] + secB.credits ≤
        MAX_CREDITS_PER_SEMESTER ∧
    validate_enrollment_eligibility (some secB) [enrolledRowConf] 1 =
        (false, ["Time conflict with existing enrollment"]) := by
  have hcred : current_enrolled_credits [enrolledRowConf] + secB.credits ≤
      MAX_CREDITS_PER_SEMESTER := by
    simp [current_enrolled_credits, enrolledRowConf, secB,
      MAX_CREDITS_PER_SEMESTER]
    norm_num
  refine ⟨by norm_num [secB], hcred, ?_⟩
  exact (time_conflict_check secB [enrolledRowConf] 1 (by norm_num [secB]) hcred).mpr
    ⟨enrolledRowConf, List.mem_singleton.mpr rfl, rfl,
     by simp [timeslot_truthy, enrolledRowConf],
     by simp [timeslot_truthy, secB], by simp [enrolledRowConf, secB]⟩

/-- Witness for the amended C9: with no current-term rows at all and a
prospective total of 4 < 10 credits, the check returns eligible with the
below-minimum warning. -/
theorem below_min_warning_check_witness :
    (0 : Int) < secB.available_spots ∧
    current_enrolled_credits [] + secB.credits ≤ MAX_CREDITS_PER_SEMESTER ∧
    validate_enrollment_eligibility (some secB) [] 1 =
        (true, ["Below minimum credit recommendation (10)"]) := by
  have hcred : current_enrolled_credits [] + secB.credits ≤
      MAX_CREDITS_PER_SEMESTER := by
    simp [current_enrolled_credits, secB, MAX_CREDITS_PER_SEMESTER]
    norm_num
  refine ⟨by norm_num [secB], hcred, ?_⟩
  exact (below_min_warning_check secB [] 1 (by norm_num [secB]) hcred).mpr
    ⟨by
      simp [current_enrolled_credits, secB, MIN_CREDITS_PER_SEMESTER]
      norm_num,
     rfl⟩

end CourseReg
